import Mathlib

/-!
Shallow embedding of `route_snowfall_map.py`.

The script is a three-stage pipeline:
* `fetch_route_data` walks the legs of a directions result and produces
  timestamped waypoints;
* `fetch_snowfall_data` issues one weather-forecast lookup per waypoint and
  attaches a snowfall amount;
* `create_snowfall_map` renders the snowfall points as circle markers.

Modelling choices: Python `datetime` values are integers of seconds since
1970-01-01 00:00:00 (the script only ever adds whole-second `timedelta`s to a
minute-precision `strptime` result); `strftime` is modelled with a proleptic
Gregorian calendar conversion; JSON numbers are rationals; the two external
HTTP services are function parameters; raised exceptions are `Except` errors;
the HTTP requests issued by `fetch_snowfall_data` are returned as a trace list;
printed diagnostics of `fetch_route_data` are returned as a list of lines.
-/

namespace RouteSnowfall

/-- Zero-pad a numeral to two digits, as `strftime` does for `%m %d %H %M %S`. -/
def pad2 (n : Nat) : String := if n < 10 then "0" ++ toString n else toString n

/-- Zero-pad a numeral to four digits, as `strftime` does for `%Y`. -/
def pad4 (n : Nat) : String :=
  if n < 10 then "000" ++ toString n
  else if n < 100 then "00" ++ toString n
  else if n < 1000 then "0" ++ toString n
  else toString n

/-- Days-since-1970-01-01 to proleptic-Gregorian (year, month, day), the
calendar Python `datetime` uses. -/
def civilFromDays (z : Int) : Int × Nat × Nat :=
  let zs := z + 719468
  let era := Int.fdiv zs 146097
  let doe := (zs - era * 146097).toNat
  let yoe := (doe - doe / 1460 + doe / 36524 - doe / 146096) / 365
  let y := (yoe : Int) + era * 400
  let doy := doe - (365 * yoe + yoe / 4 - yoe / 100)
  let mp := (5 * doy + 2) / 153
  let d := doy - (153 * mp + 2) / 5 + 1
  let m := if mp < 10 then mp + 3 else mp - 9
  (if m ≤ 2 then y + 1 else y, m, d)

/-- Second-of-day of an epoch-seconds timestamp. -/
def sod (t : Int) : Nat := (Int.emod t 86400).toNat

/-- Python `strftime("%Y-%m-%d")`. -/
def fmtDate (t : Int) : String :=
  let ymd := civilFromDays (Int.fdiv t 86400)
  pad4 ymd.1.toNat ++ "-" ++ pad2 ymd.2.1 ++ "-" ++ pad2 ymd.2.2

/-- Python `strftime("%Y-%m-%d %H:%M")`. -/
def fmtMinute (t : Int) : String :=
  fmtDate t ++ " " ++ pad2 (sod t / 3600) ++ ":" ++ pad2 (sod t % 3600 / 60)

/-- Python `str(datetime)`: `"%Y-%m-%d %H:%M:%S"` (integral seconds). -/
def fmtFull (t : Int) : String :=
  fmtMinute t ++ ":" ++ pad2 (sod t % 60)

/-! ### Directions data model (`googlemaps.Client.directions` response) -/

/-- A `start_location`/`end_location` JSON object: `lat`/`lng` coordinates. -/
structure Location where
  lat : ℚ
  lng : ℚ
deriving DecidableEq, Repr

/-- One entry of a leg's `steps` list; the script reads its `start_location`
and its `duration.value` (seconds). -/
structure SubStep where
  start_location : Location
  duration_value : Int
deriving DecidableEq, Repr

/-- One entry of a route's `legs` list. -/
structure Leg where
  steps : List SubStep
  end_location : Location
deriving DecidableEq, Repr

/-- One entry of the directions result; the script only reads `legs`. -/
structure Route where
  legs : List Leg
deriving DecidableEq, Repr

/-- A point produced by `fetch_route_data`: `{"lat": …, "lon": …, "time": …}`. -/
structure Waypoint where
  lat : ℚ
  lon : ℚ
  time : Int
deriving DecidableEq, Repr

/-- The inner `for substep in step["steps"]` loop: emits one waypoint per
substep at its `start_location`, then advances `timestamp` by the substep's
`duration.value` seconds; returns the emitted points and the final timestamp. -/
def stepsPoints : List SubStep → Int → List Waypoint × Int
  | [], t => ([], t)
  | s :: ss, t =>
    let rest := stepsPoints ss (t + s.duration_value)
    (⟨s.start_location.lat, s.start_location.lng, t⟩ :: rest.1, rest.2)

/-- The outer `for i, step in enumerate(route["legs"])` loop: per leg, the
substep points, then the leg's `end_location` point at the accumulated
timestamp, then (when `i < len(stop_durations)`) `stop_durations[i]` minutes
added to the timestamp.  Consuming the stop-duration list head per leg is the
`i`-indexed access of the source. -/
def legsLoop : List Leg → List Int → Int → List Waypoint
  | [], _, _ => []
  | leg :: rest, stops, t =>
    let sp := stepsPoints leg.steps t
    let endPt : Waypoint := ⟨leg.end_location.lat, leg.end_location.lng, sp.2⟩
    match stops with
    | [] => sp.1 ++ [endPt] ++ legsLoop rest [] sp.2
    | d :: ds => sp.1 ++ [endPt] ++ legsLoop rest ds (sp.2 + 60 * d)

/-- The function `fetch_route_data`, with the directions-service response passed in as
`directions_result`.  The first component is the printed output ("No
directions found." when the result is empty), the second the waypoint list. -/
def fetch_route_data (directions_result : List Route) (departure_time : Int)
    (stop_durations : List Int) : List String × List Waypoint :=
  match directions_result with
  | [] => (["No directions found."], [])
  | route :: _ => ([], legsLoop route.legs stop_durations departure_time)

/-! ### Specification-side decomposition of the route walk -/

/-- Total travel seconds of a leg: the sum of its substeps' durations. -/
def legDur (leg : Leg) : Int := (leg.steps.map (·.duration_value)).sum

/-- Travel seconds of the first `i` legs. -/
def travelBefore (legs : List Leg) (i : Nat) : Int :=
  ((legs.take i).map legDur).sum

/-- Stop seconds accumulated before leg `i`: `stop_durations[j]` minutes for
every `j < i` with `j < len(stop_durations)`. -/
def stopsBefore (stops : List Int) (i : Nat) : Int := 60 * (stops.take i).sum

/-- Partial sums of the substep durations of a leg: entry `k` is the travel
time of the first `k` substeps. -/
def stepOffsets (leg : Leg) : List Int :=
  (leg.steps.map (·.duration_value)).scanl (· + ·) 0

/-- The points a single leg contributes, times written as base time plus the
sum of the durations of the substeps emitted before each point. -/
def specLegPoints (leg : Leg) (t0 : Int) : List Waypoint :=
  (leg.steps.zip (stepOffsets leg)).map
    (fun sc => ⟨sc.1.start_location.lat, sc.1.start_location.lng, t0 + sc.2⟩)
  ++ [⟨leg.end_location.lat, leg.end_location.lng, t0 + legDur leg⟩]

/-! ### Weather data model (`weatherapi.com` forecast response) -/

/-- One entry of a forecast day's `hour` list: its `time` string (a required
key) and its `snow` value (read with `.get("snow", 0.0)`, so optional). -/
structure HourEntry where
  time : String
  snow : Option ℚ
deriving DecidableEq, Repr

/-- One entry of the `forecast.forecastday` list; the script reads `hour`. -/
structure ForecastDay where
  hour : List HourEntry
deriving DecidableEq, Repr

/-- The response body: `data.get("forecast", {}).get("forecastday", [])`
collapses a missing `forecast` or `forecastday` key to the empty list. -/
structure WeatherData where
  forecastday : List ForecastDay
deriving DecidableEq, Repr

/-- An HTTP response: status code plus parsed JSON body. -/
structure Response where
  status_code : Nat
  jsonData : WeatherData
deriving DecidableEq, Repr

/-- The query parameters of one `requests.get` call. -/
structure WeatherParams where
  key : String
  q : String
  dt : String
deriving DecidableEq, Repr

/-- The exceptions `fetch_snowfall_data` can raise: `requests.HTTPError` from
`raise_for_status`, `IndexError` from the `[0]` index. -/
inductive PyError where
  | httpError (code : Nat)
  | indexError
deriving DecidableEq, Repr

/-- An output point of `fetch_snowfall_data`: the input waypoint's fields plus
a `snowfall` amount. -/
structure SnowPoint where
  lat : ℚ
  lon : ℚ
  time : Int
  snowfall : ℚ
deriving DecidableEq, Repr

/-- The params dict built for one waypoint:
`q = f"{lat},{lon}"`, `dt = time.strftime("%Y-%m-%d")`. -/
def mkParams (api_key : String) (p : Waypoint) : WeatherParams :=
  ⟨api_key, toString p.lat ++ "," ++ toString p.lon, fmtDate p.time⟩

/-- The check `response.raise_for_status()` raises exactly for 4xx/5xx status codes. -/
def httpFailure (r : Response) : Bool :=
  decide (400 ≤ r.status_code) && decide (r.status_code < 600)

/-- Lines 74–80: index `[0]` into `forecastday` (an `IndexError` when the list
is empty), `next(…)` over the day's `hour` list matching the waypoint's
minute-formatted timestamp, then `hour_data.get("snow", 0.0) if hour_data
else 0.0`. -/
def getSnowfall (data : WeatherData) (p : Waypoint) : Except PyError ℚ :=
  match data.forecastday with
  | [] => Except.error PyError.indexError
  | fd :: _ =>
    match fd.hour.find? (fun h => h.time == fmtMinute p.time) with
    | some h => Except.ok (h.snow.getD 0)
    | none => Except.ok 0

/-- The function `fetch_snowfall_data`, with the weather service passed in as the function
`svc` from request parameters to response.  The first component is the trace
of requests issued, in order; the second is the returned list, or the raised
exception. -/
def fetch_snowfall_data (api_key : String) (svc : WeatherParams → Response) :
    List Waypoint → List WeatherParams × Except PyError (List SnowPoint)
  | [] => ([], Except.ok [])
  | p :: rest =>
    let ps := mkParams api_key p
    let r := svc ps
    if httpFailure r then
      ([ps], Except.error (PyError.httpError r.status_code))
    else
      match getSnowfall r.jsonData p with
      | Except.error e => ([ps], Except.error e)
      | Except.ok s =>
        let res := fetch_snowfall_data api_key svc rest
        (ps :: res.1, res.2.map (fun l => ⟨p.lat, p.lon, p.time, s⟩ :: l))

/-- The per-point lookup neither raises from `raise_for_status` nor from the
`forecastday[0]` index. -/
def lookupOk (api_key : String) (svc : WeatherParams → Response) (p : Waypoint) : Prop :=
  httpFailure (svc (mkParams api_key p)) = false ∧
    (svc (mkParams api_key p)).jsonData.forecastday ≠ []

instance (api_key : String) (svc : WeatherParams → Response) (p : Waypoint) :
    Decidable (lookupOk api_key svc p) :=
  inferInstanceAs (Decidable (_ ∧ _))

/-- The snowfall amount a successful lookup attaches to waypoint `p`: the
`snow` value of the first hour entry of the forecast day whose `time` string
equals the waypoint's timestamp formatted as `"%Y-%m-%d %H:%M"`, defaulting
to `0` when no entry matches or the matching entry has no `snow` key. -/
def pointSnow (api_key : String) (svc : WeatherParams → Response) (p : Waypoint) : ℚ :=
  match (svc (mkParams api_key p)).jsonData.forecastday with
  | [] => 0
  | fd :: _ =>
    match fd.hour.find? (fun h => h.time == fmtMinute p.time) with
    | some h => h.snow.getD 0
    | none => 0

/-! ### Map rendering (`folium`) -/

/-- One `folium.CircleMarker` as constructed by the script. -/
structure CircleMarker where
  location : ℚ × ℚ
  radius : ℚ
  popup : String
  color : String
  fill : Bool
  fill_opacity : ℚ
deriving DecidableEq, Repr

/-- A `folium.Map` with its circle markers, in insertion order. -/
structure FoliumMap where
  location : ℚ × ℚ
  zoom_start : Nat
  markers : List CircleMarker
deriving DecidableEq, Repr

/-- The marker built for one data point (line 103–111 of the script). -/
def renderMarker (d : SnowPoint) : CircleMarker :=
  { location := (d.lat, d.lon)
    radius := 5 + d.snowfall * 2
    popup := "Time: " ++ fmtFull d.time ++ "<br>Snowfall: " ++ toString d.snowfall ++ " cm"
    color := if d.snowfall = 0 then "blue" else if d.snowfall ≤ 2 then "lightblue" else "darkblue"
    fill := true
    fill_opacity := 7 / 10 }

/-- The function `create_snowfall_map`: `none` when the data is empty (the script prints
"No snowfall data to display." and saves nothing); otherwise the saved file
name and the map, centered on the first data point with `zoom_start=10` and
one circle marker per data point. -/
def create_snowfall_map (snowfall_data : List SnowPoint) (output_file : String) :
    Option (String × FoliumMap) :=
  match snowfall_data with
  | [] => none
  | first :: _ =>
    some (output_file,
      { location := (first.lat, first.lon)
        zoom_start := 10
        markers := snowfall_data.map renderMarker })

/-! ### Concrete instances used by witnesses and counterexamples -/

/-- An hour entry of the 14:00 hour of 2024-01-01, predicting snow 5. -/
def okHour : HourEntry := ⟨"2024-01-01 14:00", some 5⟩

/-- A weather service always answering 200 with the single hour entry above. -/
def okSvc : WeatherParams → Response := fun _ => ⟨200, ⟨[⟨[okHour]⟩]⟩⟩

/-- A waypoint timestamped 2024-01-01 14:00:00. -/
def wpA : Waypoint := ⟨1, 2, 1704117600⟩

/-- A waypoint timestamped 2024-01-01 14:37:00. -/
def cexPoint : Waypoint := ⟨1, 2, 1704119820⟩

/-- A waypoint timestamped 2024-01-01 14:37:00 at other coordinates. -/
def wpMid : Waypoint := ⟨7, 8, 1704119820⟩

/-- Another waypoint, at the epoch. -/
def wpB : Waypoint := ⟨3, 4, 0⟩

/-- A weather service answering 200 for the point at (1,2) and 503 elsewhere. -/
def errSvc : WeatherParams → Response := fun ps =>
  if ps.q == "1,2" then ⟨200, ⟨[⟨[okHour]⟩]⟩⟩ else ⟨503, ⟨[]⟩⟩

/-- A weather service answering 200 with an empty `forecastday` list. -/
def emptyForecastSvc : WeatherParams → Response := fun _ => ⟨200, ⟨[]⟩⟩

/-- A two-substep leg with durations 10 s and 20 s. -/
def wLeg : Leg := ⟨[⟨⟨1, 1⟩, 10⟩, ⟨⟨2, 2⟩, 20⟩], ⟨3, 3⟩⟩

/-- A two-leg route: `wLeg`, then a one-substep leg of 30 s. -/
def wRoute : Route := ⟨[wLeg, ⟨[⟨⟨4, 4⟩, 30⟩], ⟨5, 5⟩⟩]⟩

/-- A snowfall point with snowfall 3. -/
def wSnow : SnowPoint := ⟨1, 2, 0, 3⟩

/-! ### Theorems: the snowfall-fetch stage -/

/-- When the per-point lookup raises neither exception, `getSnowfall` returns
`pointSnow`. -/
theorem getSnowfall_of_ok (api_key : String) (svc : WeatherParams → Response)
    (p : Waypoint) (h : (svc (mkParams api_key p)).jsonData.forecastday ≠ []) :
    getSnowfall (svc (mkParams api_key p)).jsonData p =
      Except.ok (pointSnow api_key svc p) := by
  cases hfc : (svc (mkParams api_key p)).jsonData.forecastday with
  | nil => exact absurd hfc h
  | cons fd rest =>
    cases hfind : fd.hour.find? (fun hr => hr.time == fmtMinute p.time) with
    | none => simp [getSnowfall, pointSnow, hfc, hfind]
    | some hh => simp [getSnowfall, pointSnow, hfc, hfind]

/-- When every lookup succeeds, `fetch_snowfall_data` issues one request per
waypoint, in order, and maps each waypoint to its `pointSnow` value. -/
theorem fetch_snowfall_ok (api_key : String) (svc : WeatherParams → Response)
    (wps : List Waypoint) (h : ∀ p ∈ wps, lookupOk api_key svc p) :
    fetch_snowfall_data api_key svc wps =
      (wps.map (mkParams api_key),
       Except.ok (wps.map (fun p => ⟨p.lat, p.lon, p.time, pointSnow api_key svc p⟩))) := by
  induction wps with
  | nil => rfl
  | cons p rest ih =>
    obtain ⟨h1, h2⟩ := h p (List.mem_cons_self p rest)
    have hrest := ih (fun q hq => h q (List.mem_cons_of_mem p hq))
    simp only [fetch_snowfall_data, h1, Bool.false_eq_true, if_false,
      getSnowfall_of_ok api_key svc p h2, hrest, List.map_cons, Except.map]

/-- C2 (counterexample): for the waypoint timestamped 2024-01-01 14:37 and a
weather response whose forecast carries the hour entry of the containing hour
(time string "2024-01-01 14:00", snow 5), `fetch_snowfall_data` attaches
snowfall 0, not the containing hour's predicted snow 5. -/
theorem fetch_snowfall_hour_mismatch :
    (fetch_snowfall_data "k" okSvc [cexPoint]).2 =
      Except.ok [⟨1, 2, 1704119820, 0⟩] ∧
    okHour.time = fmtMinute 1704117600 ∧ okHour.snow = some 5 ∧ (0 : ℚ) ≠ 5 := by
  refine ⟨rfl, rfl, rfl, by norm_num⟩

/-- C2 (amended): when every lookup returns a success status and a nonempty
forecast-day list, `fetch_snowfall_data` issues exactly one weather-forecast
lookup per point, in order, and attaches to each point as its snowfall amount
the `snow` value of the first forecast hour entry whose time string exactly
equals the point's arrival timestamp formatted as "%Y-%m-%d %H:%M"
(`pointSnow`), defaulting to 0 when no entry matches. -/
theorem fetch_snowfall_exact_match (api_key : String) (svc : WeatherParams → Response)
    (wps : List Waypoint) (h : ∀ p ∈ wps, lookupOk api_key svc p) :
    (fetch_snowfall_data api_key svc wps).1 = wps.map (mkParams api_key) ∧
    (fetch_snowfall_data api_key svc wps).2 =
      Except.ok (wps.map (fun p => ⟨p.lat, p.lon, p.time, pointSnow api_key svc p⟩)) := by
  rw [fetch_snowfall_ok api_key svc wps h]
  exact ⟨rfl, rfl⟩

/-- Witness for the amended C2 at a concrete input. -/
theorem fetch_snowfall_exact_match_witness :
    (∀ p ∈ [wpA], lookupOk "k" okSvc p) ∧
    (fetch_snowfall_data "k" okSvc [wpA]).1 = [wpA].map (mkParams "k") ∧
    (fetch_snowfall_data "k" okSvc [wpA]).2 =
      Except.ok ([wpA].map (fun p => ⟨p.lat, p.lon, p.time, pointSnow "k" okSvc p⟩)) :=
  ⟨by decide, fetch_snowfall_exact_match "k" okSvc [wpA] (by decide)⟩

/-- C5: when the weather service answers the request of some point with an
HTTP error status, the raw exception propagates: exactly one request is issued
for each point up to and including the failing one and none after it, and the
result is the error, not a partial list. -/
theorem fetch_snowfall_http_error_aborts (api_key : String)
    (svc : WeatherParams → Response) (pre : List Waypoint) (p : Waypoint)
    (post : List Waypoint) (hok : ∀ q ∈ pre, lookupOk api_key svc q)
    (hfail : httpFailure (svc (mkParams api_key p)) = true) :
    fetch_snowfall_data api_key svc (pre ++ p :: post) =
      ((pre ++ [p]).map (mkParams api_key),
       Except.error (PyError.httpError (svc (mkParams api_key p)).status_code)) := by
  induction pre with
  | nil => simp [fetch_snowfall_data, hfail]
  | cons q rest ih =>
    obtain ⟨h1, h2⟩ := hok q (List.mem_cons_self q rest)
    have hrest := ih (fun r hr => hok r (List.mem_cons_of_mem q hr))
    simp only [List.cons_append, fetch_snowfall_data, h1, Bool.false_eq_true, if_false,
      getSnowfall_of_ok api_key svc q h2, List.append_eq, hrest, List.map_cons, Except.map]

/-- Witness for C5 at a concrete input: the first point's lookup succeeds, the
second answers 503, the third is never queried. -/
theorem fetch_snowfall_http_error_aborts_witness :
    (∀ q ∈ [wpA], lookupOk "k" errSvc q) ∧
    httpFailure (errSvc (mkParams "k" wpB)) = true ∧
    fetch_snowfall_data "k" errSvc ([wpA] ++ wpB :: [wpMid]) =
      (([wpA] ++ [wpB]).map (mkParams "k"),
       Except.error (PyError.httpError (errSvc (mkParams "k" wpB)).status_code)) :=
  ⟨by decide, by decide,
   fetch_snowfall_http_error_aborts "k" errSvc [wpA] wpB [wpMid] (by decide) (by decide)⟩

/-- C7: when every lookup succeeds, `fetch_snowfall_data` returns a list of
the same length and order as its input whose `i`-th element carries the `i`-th
input point's `lat`, `lon` and `time` unchanged, with a snowfall amount as the
only added field. -/
theorem fetch_snowfall_frame (api_key : String) (svc : WeatherParams → Response)
    (wps : List Waypoint) (h : ∀ p ∈ wps, lookupOk api_key svc p) :
    ∃ f : Waypoint → ℚ,
      (fetch_snowfall_data api_key svc wps).2 =
        Except.ok (wps.map (fun p => ⟨p.lat, p.lon, p.time, f p⟩)) :=
  ⟨pointSnow api_key svc, by rw [fetch_snowfall_ok api_key svc wps h]⟩

/-- Witness for C7 at a concrete input. -/
theorem fetch_snowfall_frame_witness :
    ∃ f : Waypoint → ℚ,
      (fetch_snowfall_data "k" okSvc [wpB, wpMid]).2 =
        Except.ok ([wpB, wpMid].map (fun p => ⟨p.lat, p.lon, p.time, f p⟩)) :=
  fetch_snowfall_frame "k" okSvc [wpB, wpMid] (by decide)

/-- C8: a waypoint whose minute-formatted timestamp matches no hour entry's
time string is recorded with snowfall 0 rather than failing. -/
theorem fetch_snowfall_no_hour_match (api_key : String)
    (svc : WeatherParams → Response) (p : Waypoint) (fd : ForecastDay)
    (rest : List ForecastDay)
    (hs : httpFailure (svc (mkParams api_key p)) = false)
    (hfd : (svc (mkParams api_key p)).jsonData.forecastday = fd :: rest)
    (hno : ∀ hr ∈ fd.hour, hr.time ≠ fmtMinute p.time) :
    fetch_snowfall_data api_key svc [p] =
      ([mkParams api_key p], Except.ok [⟨p.lat, p.lon, p.time, 0⟩]) := by
  have hfind : fd.hour.find? (fun hr => hr.time == fmtMinute p.time) = none := by
    rw [List.find?_eq_none]
    intro x hx
    simpa using hno x hx
  simp [fetch_snowfall_data, hs, getSnowfall, hfd, hfind, Except.map]

/-- Witness for C8 at a concrete input: the 14:37 waypoint against a forecast
whose only hour entry is for 14:00. -/
theorem fetch_snowfall_no_hour_match_witness :
    httpFailure (okSvc (mkParams "k" cexPoint)) = false ∧
    (okSvc (mkParams "k" cexPoint)).jsonData.forecastday = ⟨[okHour]⟩ :: [] ∧
    (∀ hr ∈ (⟨[okHour]⟩ : ForecastDay).hour, hr.time ≠ fmtMinute cexPoint.time) ∧
    fetch_snowfall_data "k" okSvc [cexPoint] =
      ([mkParams "k" cexPoint], Except.ok [⟨cexPoint.lat, cexPoint.lon, cexPoint.time, 0⟩]) :=
  ⟨by decide, by decide, by decide,
   fetch_snowfall_no_hour_match "k" okSvc cexPoint ⟨[okHour]⟩ []
     (by decide) (by decide) (by decide)⟩

/-- C9: a response with a success status but an empty `forecastday` list makes
`fetch_snowfall_data` raise (`IndexError` from the unguarded `[0]` index), and
the 0.0 default is not applied. -/
theorem fetch_snowfall_empty_forecast_raises :
    fetch_snowfall_data "k" emptyForecastSvc [⟨1, 2, 0⟩] =
      ([mkParams "k" ⟨1, 2, 0⟩], Except.error PyError.indexError) := rfl

/-! ### Theorems: the map-render stage -/

/-- C4: on non-empty data, `create_snowfall_map` saves exactly one map at
`output_file`, centered on the first data point, with one circle marker per
data point whose radius is `5 + 2 * snowfall` and whose color is "blue" at
snowfall 0, "lightblue" on (0, 2], and "darkblue" above 2. -/
theorem create_snowfall_map_spec (d : SnowPoint) (rest : List SnowPoint)
    (output_file : String) :
    create_snowfall_map (d :: rest) output_file =
      some (output_file, ⟨(d.lat, d.lon), 10, (d :: rest).map renderMarker⟩) ∧
    ∀ p : SnowPoint,
      (renderMarker p).location = (p.lat, p.lon) ∧
      (renderMarker p).radius = 5 + 2 * p.snowfall ∧
      (p.snowfall = 0 → (renderMarker p).color = "blue") ∧
      (0 < p.snowfall → p.snowfall ≤ 2 → (renderMarker p).color = "lightblue") ∧
      (2 < p.snowfall → (renderMarker p).color = "darkblue") := by
  refine ⟨rfl, fun p => ⟨rfl, by simp [renderMarker]; ring, ?_, ?_, ?_⟩⟩
  · intro h0
    simp [renderMarker, h0]
  · intro h1 h2
    simp [renderMarker, ne_of_gt h1, h2]
  · intro h3
    have h0 : p.snowfall ≠ 0 := by positivity
    simp [renderMarker, h0, not_le.mpr h3]

/-- Witness for C4 at a concrete input with snowfall 3. -/
theorem create_snowfall_map_spec_witness :
    create_snowfall_map [wSnow] "snowfall_map.html" =
      some ("snowfall_map.html", ⟨(wSnow.lat, wSnow.lon), 10, [wSnow].map renderMarker⟩) ∧
    (renderMarker wSnow).color = "darkblue" :=
  ⟨(create_snowfall_map_spec wSnow [] "snowfall_map.html").1,
   ((create_snowfall_map_spec wSnow [] "snowfall_map.html").2 wSnow).2.2.2.2 (by decide)⟩

/-! ### Theorems: the route-fetch stage -/

/-- C6: an empty directions result is logged with "No directions found." and
short-circuits with the empty waypoint list. -/
theorem fetch_route_data_empty (departure_time : Int) (stop_durations : List Int) :
    fetch_route_data [] departure_time stop_durations =
      (["No directions found."], []) := rfl

/-- Shifting the seed of an additive `scanl` shifts every partial sum. -/
theorem scanl_add_shift (a : Int) :
    ∀ (ds : List Int) (b : Int),
      List.scanl (· + ·) (a + b) ds = (List.scanl (· + ·) b ds).map (a + ·)
  | [], b => by simp
  | d :: ds, b => by
    rw [List.scanl_cons, List.scanl_cons, List.map_append]
    rw [show a + b + d = a + (b + d) from add_assoc a b d, scanl_add_shift a ds (b + d)]
    simp

/-- The final timestamp of the substep loop is the base time plus the sum of
the substep durations. -/
theorem stepsPoints_snd (steps : List SubStep) (t : Int) :
    (stepsPoints steps t).2 = t + (steps.map (·.duration_value)).sum := by
  induction steps generalizing t with
  | nil => simp [stepsPoints]
  | cons s ss ih => simp [stepsPoints, ih, add_assoc]

/-- The substep loop emits one point per substep, at its `start_location`,
timestamped base time plus the sum of the durations of the preceding
substeps. -/
theorem stepsPoints_fst (steps : List SubStep) (t : Int) :
    (stepsPoints steps t).1 =
      (steps.zip ((steps.map (·.duration_value)).scanl (· + ·) 0)).map
        (fun sc => ⟨sc.1.start_location.lat, sc.1.start_location.lng, t + sc.2⟩) := by
  induction steps generalizing t with
  | nil => simp [stepsPoints]
  | cons s ss ih =>
    rw [show (s :: ss).map (·.duration_value) = s.duration_value :: ss.map (·.duration_value)
      from rfl, List.scanl_cons, List.singleton_append]
    rw [show (0 : Int) + s.duration_value = s.duration_value + 0 by ring,
      scanl_add_shift s.duration_value _ 0, List.zip_cons_cons, List.zip_map_right,
      List.map_cons, List.map_map]
    show (⟨s.start_location.lat, s.start_location.lng, t⟩ :: (stepsPoints ss (t + s.duration_value)).1) = _
    rw [ih (t + s.duration_value)]
    simp only [add_zero]
    congr 1
    refine List.map_congr_left (fun sc _ => ?_)
    show (⟨sc.1.start_location.lat, sc.1.start_location.lng, t + s.duration_value + sc.2⟩ : Waypoint) =
      ⟨sc.1.start_location.lat, sc.1.start_location.lng, t + (s.duration_value + sc.2)⟩
    rw [add_assoc]

/-- Mapping over an enumeration started at `n + 1` is mapping the shifted
function over the enumeration started at `n`. -/
theorem map_enumFrom_shift {α β : Type} (f : Nat × α → β) :
    ∀ (l : List α) (n : Nat),
      (l.enumFrom (n + 1)).map f = (l.enumFrom n).map (fun q => f (q.1 + 1, q.2))
  | [], _ => rfl
  | a :: l, n => by
    show f (n + 1, a) :: (l.enumFrom (n + 2)).map f = _
    rw [map_enumFrom_shift f l (n + 1)]
    rfl

theorem travelBefore_zero (legs : List Leg) : travelBefore legs 0 = 0 := rfl

theorem stopsBefore_zero (stops : List Int) : stopsBefore stops 0 = 0 := by
  simp [stopsBefore]

theorem travelBefore_cons (leg : Leg) (legs : List Leg) (i : Nat) :
    travelBefore (leg :: legs) (i + 1) = legDur leg + travelBefore legs i := by
  simp [travelBefore, List.take_succ_cons]

theorem stopsBefore_cons (d : Int) (ds : List Int) (i : Nat) :
    stopsBefore (d :: ds) (i + 1) = 60 * d + stopsBefore ds i := by
  simp [stopsBefore, List.take_succ_cons, mul_add]

theorem stopsBefore_nil (i : Nat) : stopsBefore [] i = 0 := by
  simp [stopsBefore]

/-- A leg's contribution to the loop output is `specLegPoints`. -/
theorem stepsPoints_leg (leg : Leg) (t : Int) :
    (stepsPoints leg.steps t).1 ++
      [⟨leg.end_location.lat, leg.end_location.lng, (stepsPoints leg.steps t).2⟩] =
      specLegPoints leg t := by
  rw [specLegPoints, stepsPoints_fst, stepsPoints_snd, stepOffsets, legDur]

/-- The leg loop decomposed: leg `i` contributes its `specLegPoints` based at
the departure time plus the travel time of the legs before it plus the stop
minutes accumulated before it. -/
theorem legsLoop_spec :
    ∀ (legs : List Leg) (stops : List Int) (t : Int),
      legsLoop legs stops t =
        ((legs.enumFrom 0).map
          (fun il => specLegPoints il.2
            (t + travelBefore legs il.1 + stopsBefore stops il.1))).flatten
  | [], _, _ => rfl
  | leg :: rest, stops, t => by
    rw [show ((leg :: rest).enumFrom 0) = (0, leg) :: rest.enumFrom 1 from rfl,
      List.map_cons, List.flatten_cons, map_enumFrom_shift,
      travelBefore_zero, stopsBefore_zero, add_zero, add_zero]
    cases stops with
    | nil =>
      show (stepsPoints leg.steps t).1 ++
          [⟨leg.end_location.lat, leg.end_location.lng, (stepsPoints leg.steps t).2⟩] ++
          legsLoop rest [] (stepsPoints leg.steps t).2 = _
      rw [stepsPoints_leg, legsLoop_spec rest [] (stepsPoints leg.steps t).2,
        stepsPoints_snd]
      congr 2
      refine List.map_congr_left (fun q _ => ?_)
      show specLegPoints q.2
          (t + legDur leg + travelBefore rest q.1 + stopsBefore [] q.1) =
        specLegPoints q.2 (t + travelBefore (leg :: rest) (q.1 + 1) + stopsBefore [] (q.1 + 1))
      rw [travelBefore_cons, stopsBefore_nil, stopsBefore_nil]
      congr 1
      ring
    | cons d ds =>
      show (stepsPoints leg.steps t).1 ++
          [⟨leg.end_location.lat, leg.end_location.lng, (stepsPoints leg.steps t).2⟩] ++
          legsLoop rest ds ((stepsPoints leg.steps t).2 + 60 * d) = _
      rw [stepsPoints_leg, legsLoop_spec rest ds ((stepsPoints leg.steps t).2 + 60 * d),
        stepsPoints_snd]
      congr 2
      refine List.map_congr_left (fun q _ => ?_)
      show specLegPoints q.2
          (t + legDur leg + 60 * d + travelBefore rest q.1 + stopsBefore ds q.1) =
        specLegPoints q.2
          (t + travelBefore (leg :: rest) (q.1 + 1) + stopsBefore (d :: ds) (q.1 + 1))
      rw [travelBefore_cons, stopsBefore_cons]
      congr 1
      ring

/-- C1: for a non-empty directions result, the returned list is, per leg in
order, one point per substep at that substep's `start_location` followed by
one point at the leg's `end_location` (`specLegPoints`), each timestamped
`departure_time` plus the durations of all substeps emitted before it plus
`stop_durations[j]` minutes for every fully traversed leg `j` with
`j < len(stop_durations)` (`travelBefore`/`stopsBefore`/`stepOffsets`). -/
theorem fetch_route_data_points (route : Route) (rest : List Route)
    (departure_time : Int) (stop_durations : List Int) :
    (fetch_route_data (route :: rest) departure_time stop_durations).2 =
      ((route.legs.enumFrom 0).map
        (fun il => specLegPoints il.2
          (departure_time + travelBefore route.legs il.1 +
            stopsBefore stop_durations il.1))).flatten :=
  legsLoop_spec route.legs stop_durations departure_time

/-- An element of a list's `getLast?` is an element of the list. -/
theorem mem_of_getLast_opt {α : Type} {l : List α} {x : α} (h : x ∈ l.getLast?) :
    x ∈ l := by
  obtain ⟨hne, rfl⟩ := List.mem_getLast?_eq_getLast h
  exact List.getLast_mem hne

/-- With nonnegative substep durations, the substep loop's final timestamp is
at least the base time, every emitted time lies between the base time and the
final timestamp, and the emitted times are nondecreasing. -/
theorem stepsPoints_mono (steps : List SubStep) (t : Int)
    (h : ∀ s ∈ steps, 0 ≤ s.duration_value) :
    t ≤ (stepsPoints steps t).2 ∧
    (∀ w ∈ (stepsPoints steps t).1, t ≤ w.time ∧ w.time ≤ (stepsPoints steps t).2) ∧
    List.Chain' (fun a b => a.time ≤ b.time) (stepsPoints steps t).1 := by
  induction steps generalizing t with
  | nil => exact ⟨le_refl t, by simp [stepsPoints], by simp [stepsPoints]⟩
  | cons s ss ih =>
    have hd : 0 ≤ s.duration_value := h s (List.mem_cons_self s ss)
    obtain ⟨ih1, ih2, ih3⟩ :=
      ih (t + s.duration_value) (fun x hx => h x (List.mem_cons_of_mem s hx))
    have hstep : t ≤ t + s.duration_value := by omega
    refine ⟨le_trans hstep ih1, ?_, ?_⟩
    · intro w hw
      rcases List.mem_cons.mp hw with hw | hw
      · exact ⟨le_of_eq (by rw [hw]), by rw [hw]; exact le_trans hstep ih1⟩
      · exact ⟨le_trans hstep (ih2 w hw).1, (ih2 w hw).2⟩
    · rw [show (stepsPoints (s :: ss) t).1 =
        ⟨s.start_location.lat, s.start_location.lng, t⟩ ::
          (stepsPoints ss (t + s.duration_value)).1 from rfl, List.chain'_cons']
      refine ⟨fun y hy => ?_, ih3⟩
      exact le_trans hstep (ih2 y (List.mem_of_mem_head? hy)).1

/-- The head stop duration consumed after a leg (0 when the list is empty). -/
theorem legsLoop_cons_eq (leg : Leg) (rest : List Leg) (stops : List Int) (t : Int) :
    legsLoop (leg :: rest) stops t =
      (stepsPoints leg.steps t).1 ++
        [⟨leg.end_location.lat, leg.end_location.lng, (stepsPoints leg.steps t).2⟩] ++
        legsLoop rest stops.tail
          ((stepsPoints leg.steps t).2 + 60 * (stops.headD 0)) := by
  cases stops with
  | nil => simp [legsLoop]
  | cons d ds => rfl

/-- With nonnegative substep and stop durations, every emitted time is at
least the base time and the emitted times are nondecreasing. -/
theorem legsLoop_mono (legs : List Leg) (stops : List Int) (t : Int)
    (hlegs : ∀ leg ∈ legs, ∀ s ∈ leg.steps, 0 ≤ s.duration_value)
    (hstops : ∀ d ∈ stops, 0 ≤ d) :
    (∀ w ∈ legsLoop legs stops t, t ≤ w.time) ∧
    List.Chain' (fun a b => a.time ≤ b.time) (legsLoop legs stops t) := by
  induction legs generalizing stops t with
  | nil => simp [legsLoop]
  | cons leg rest ih =>
    obtain ⟨sp1, sp2, sp3⟩ :=
      stepsPoints_mono leg.steps t (hlegs leg (List.mem_cons_self leg rest))
    have hstop0 : (0 : Int) ≤ stops.headD 0 := by
      cases stops with
      | nil => exact le_refl 0
      | cons d ds => exact hstops d (List.mem_cons_self d ds)
    have hlift : (stepsPoints leg.steps t).2 ≤
        (stepsPoints leg.steps t).2 + 60 * (stops.headD 0) := by
      have : (0 : Int) ≤ 60 * (stops.headD 0) := by positivity
      omega
    obtain ⟨ihl, ihc⟩ := ih stops.tail ((stepsPoints leg.steps t).2 + 60 * (stops.headD 0))
      (fun lg hlg s hs => hlegs lg (List.mem_cons_of_mem leg hlg) s hs)
      (fun d hd => hstops d (List.mem_of_mem_tail hd))
    rw [legsLoop_cons_eq, List.append_assoc, List.singleton_append]
    set endPt : Waypoint :=
      ⟨leg.end_location.lat, leg.end_location.lng, (stepsPoints leg.steps t).2⟩ with hEnd
    constructor
    · intro w hw
      rcases List.mem_append.mp hw with hw | hw
      · exact (sp2 w hw).1
      · rcases List.mem_cons.mp hw with hw | hw
        · rw [hw, hEnd]; exact sp1
        · exact le_trans (le_trans sp1 hlift) (ihl w hw)
    · refine List.Chain'.append sp3 ?_ ?_
      · rw [List.chain'_cons']
        exact ⟨fun y hy => le_trans hlift (ihl y (List.mem_of_mem_head? hy)), ihc⟩
      · intro x hx y hy
        have hx' := (sp2 x (mem_of_getLast_opt hx)).2
        have hy' : y = endPt := by
          have := hy
          simp only [List.head?_cons, Option.mem_def, Option.some.injEq] at this
          exact this.symm
        rw [hy', hEnd]
        exact hx'

/-- C3: when every substep duration and every stop duration of the directions
result is nonnegative, the arrival timestamps of the waypoints returned by
`fetch_route_data` are nondecreasing along the route. -/
theorem fetch_route_data_monotone (directions_result : List Route)
    (departure_time : Int) (stop_durations : List Int)
    (hdur : ∀ route ∈ directions_result, ∀ leg ∈ route.legs, ∀ s ∈ leg.steps,
      0 ≤ s.duration_value)
    (hstops : ∀ d ∈ stop_durations, 0 ≤ d) :
    List.Chain' (fun a b => a.time ≤ b.time)
      (fetch_route_data directions_result departure_time stop_durations).2 := by
  cases directions_result with
  | nil => simp [fetch_route_data]
  | cons route rest =>
    exact (legsLoop_mono route.legs stop_durations departure_time
      (hdur route (List.mem_cons_self route rest)) hstops).2

/-- Witness for C3 at a concrete two-leg route. -/
theorem fetch_route_data_monotone_witness :
    (∀ route ∈ [wRoute], ∀ leg ∈ route.legs, ∀ s ∈ leg.steps, 0 ≤ s.duration_value) ∧
    (∀ d ∈ [(1 : Int)], 0 ≤ d) ∧
    List.Chain' (fun a b => a.time ≤ b.time)
      (fetch_route_data [wRoute] 1000 [1]).2 :=
  ⟨by decide, by decide,
   fetch_route_data_monotone [wRoute] 1000 [1] (by decide) (by decide)⟩

/-- The leg loop never reads past entry `n - 1` of the stop-duration list,
`n` the number of legs: the stop after the final leg is added to a timestamp
that no further point uses. -/
theorem legsLoop_take :
    ∀ (legs : List Leg) (stops : List Int) (t : Int),
      legsLoop legs (stops.take (legs.length - 1)) t = legsLoop legs stops t
  | [], _, _ => rfl
  | leg :: rest, [], t => by rw [List.take_nil]
  | leg :: [], d :: ds, t => by simp [legsLoop]
  | leg :: r :: rs, d :: ds, t => by
    rw [show (leg :: r :: rs).length - 1 = (r :: rs).length - 1 + 1 from rfl,
      List.take_succ_cons]
    show (stepsPoints leg.steps t).1 ++ _ ++
        legsLoop (r :: rs) (ds.take ((r :: rs).length - 1)) ((stepsPoints leg.steps t).2 + 60 * d) = _
    rw [legsLoop_take (r :: rs) ds ((stepsPoints leg.steps t).2 + 60 * d)]
    rfl

/-- C10: the returned list only depends on the first `n - 1` entries of
`stop_durations`, `n` the number of legs: altering, adding or removing
entries at index `≥ n - 1` leaves every returned timestamp unchanged, and
legs with no corresponding entry contribute zero stop time without error. -/
theorem fetch_route_data_trailing_stops (route : Route) (rest : List Route)
    (departure_time : Int) (stops stops2 : List Int)
    (h : stops.take (route.legs.length - 1) = stops2.take (route.legs.length - 1)) :
    fetch_route_data (route :: rest) departure_time stops =
      fetch_route_data (route :: rest) departure_time stops2 := by
  show (([] : List String), legsLoop route.legs stops departure_time) =
    (([] : List String), legsLoop route.legs stops2 departure_time)
  rw [← legsLoop_take route.legs stops departure_time,
    ← legsLoop_take route.legs stops2 departure_time, h]

/-- Witness for C10: with a two-leg route, stop lists `[1, 5]` and `[1]`
produce the same output. -/
theorem fetch_route_data_trailing_stops_witness :
    ([(1 : Int), 5].take (wRoute.legs.length - 1) =
      [(1 : Int)].take (wRoute.legs.length - 1)) ∧
    fetch_route_data [wRoute] 1000 [1, 5] = fetch_route_data [wRoute] 1000 [1] :=
  ⟨by decide, fetch_route_data_trailing_stops wRoute [] 1000 [1, 5] [1] (by decide)⟩

end RouteSnowfall
